import Mathlib

/-!
Shallow embedding of `src/crates/notion-core/src/style.rs` (the view layer of
Notion: error reporting and progress indicators).

Modelling conventions:
* Terminal writes are modelled as the `String` a call appends to its stream
  (stderr for errors, stdout for progress).  `console::style(..)` wraps text in
  terminal-dependent ANSI colour codes; per the spec's non-colorized comparison
  convention these codes are stripped, so styling is the identity on text here.
* The process environment is a function `String → Option String`; `env::var`
  returns `Ok` exactly when the variable is present (and valid unicode), so
  `is_ok()` is modelled by `Option.isSome`.  The Rust code calls `env::var`
  inside the function body on every invocation; correspondingly the embedding
  takes the environment as a per-call argument.
* Rust `usize` subtraction is fallible (panic in debug builds, a program error
  either way); it is embedded as checked subtraction returning `Option Nat`,
  `none` marking underflow.
* A `failure::Fail` value is embedded by what the reporter consumes from it:
  its `{:?}` debug representation and the optional debug representation of its
  backtrace.
-/

namespace NotionStyle

/-- Represents the context from which an error is being reported
(`ErrorContext` in style.rs). -/
inductive ErrorContext where
  | Notion
  | Shim
deriving DecidableEq

/-- The styled prefix written by `display_error_prefix`: `eprint!("{} ", ...)`
with the styled text `"error:"` for `Notion` and `"Notion error:"` for `Shim`
(ANSI codes stripped). -/
def display_error_prefix (cx : ErrorContext) : String :=
  match cx with
  | ErrorContext.Notion => "error: "
  | ErrorContext.Shim => "Notion error: "

/-- `display_error`: writes the context prefix, then the error's display text
and a newline (`eprintln!("{}", err)`). -/
def display_error (cx : ErrorContext) (err : String) : String :=
  display_error_prefix cx ++ err ++ "\n"

/-- What `display_unknown_error` consumes from a `failure::Fail` value: the
`{:?}` debug representation of the error itself, and the `{:?}` debug
representation of `err.backtrace()` when that is `Some`. -/
structure Failure where
  debugRepr : String
  backtrace : Option String
deriving DecidableEq

/-- The instructional fallback line of `display_unknown_error`. -/
def backtrace_instruction : String :=
  "Run with NOTION_DEV=1 and RUST_BACKTRACE=1 for a backtrace.\n"

/-- The fixed user-facing message `display_unknown_error` emits when
`NOTION_DEV` is unset (ANSI codes stripped). -/
def unknown_error_user_message : String :=
  "Notion is still a pre-alpha project, so we expect to run into some bugs,\n" ++
  "but we'd love to hear about them so we can fix them!\n" ++
  "\n" ++
  "Please feel free to reach out to us at @notionjs on Twitter or file an issue at:\n" ++
  "\n" ++
  "    https://github.com/notion-cli/notion/issues\n" ++
  "\n"

/-- `display_unknown_error`: prefix, the generic internal-error line, then a
branch on `env::var("NOTION_DEV").is_ok()`.  In the dev branch the backtrace is
printed only when `backtrace.is_some() && env::var("RUST_BACKTRACE").is_ok()`;
the `match` renders that conjunction together with the `unwrap`. -/
def display_unknown_error (env : String → Option String) (cx : ErrorContext)
    (err : Failure) : String :=
  display_error_prefix cx ++ "an internal error occurred\n" ++ "\n" ++
    (if (env "NOTION_DEV").isSome then
      "details: " ++ err.debugRepr ++ "\n" ++ "\n" ++
        (match err.backtrace, (env "RUST_BACKTRACE").isSome with
          | some bt, true => bt ++ "\n"
          | some _, false => backtrace_instruction
          | none, _ => backtrace_instruction)
    else
      unknown_error_user_message)

/-- The `Action` enum of style.rs (a single variant today). -/
inductive Action where
  | Fetching
deriving DecidableEq

/-- `Action::MAX_WIDTH`: the constant `10` from style.rs, documented there as
the maximum width of the displayed Action strings. -/
def Action.MAX_WIDTH : Nat := 10

/-- The `Display` implementation for `Action`. -/
def Action.display (a : Action) : String :=
  match a with
  | Action.Fetching => "Fetching"

/-- Checked `usize` subtraction: `none` marks underflow, which in the Rust
source is an arithmetic error (panic in debug builds). -/
def usizeSub (a b : Nat) : Option Nat :=
  if b ≤ a then some (a - b) else none

/-- `term_size::dimensions().map(|(w, _)| w).unwrap_or(80)`. -/
def display_width (dims : Option Nat) : Nat :=
  dims.getD 80

/-- `msg_width = Action::MAX_WIDTH + 1 + details.len()` (Rust `str::len` is the
UTF-8 byte length). -/
def msg_width (details : String) : Nat :=
  Action.MAX_WIDTH + 1 + details.utf8ByteSize

/-- `available_width = display_width - 2 - msg_width - 2 - 2 - 1 - 3 - 1`, each
`usize` subtraction checked. -/
def available_width (dims : Option Nat) (details : String) : Option Nat := do
  let w1 ← usizeSub (display_width dims) 2
  let w2 ← usizeSub w1 (msg_width details)
  let w3 ← usizeSub w2 2
  let w4 ← usizeSub w3 2
  let w5 ← usizeSub w4 1
  let w6 ← usizeSub w5 3
  usizeSub w6 1

/-- `bar_width = min(available_width, 40)` as computed by `progress_bar`. -/
def bar_width (dims : Option Nat) (details : String) : Option Nat :=
  (available_width dims details).map (fun a => min a 40)

/-- Rust `format!("{: >width$}", s)`: right-align `s` in a field of `width`
characters, filling with spaces on the left. -/
def pad_start (s : String) (width : Nat) : String :=
  String.mk (List.replicate (width - s.length) ' ') ++ s

/-- The message set by `progress_bar`:
`format!("{: >width$} {}", style(action.to_string())..., details, width = Action::MAX_WIDTH)`
(ANSI codes stripped). -/
def progress_bar_message (action : Action) (details : String) : String :=
  pad_start action.display Action.MAX_WIDTH ++ " " ++ details

/-- The static configuration `progress_spinner` installs on the returned
handle: the message, the style template, and the steady-tick interval in
milliseconds. -/
structure SpinnerConfig where
  message : String
  template : String
  tick_ms : Nat
deriving DecidableEq

/-- `progress_spinner`: sets the message, the template `"{spinner} {msg}"`,
and `enable_steady_tick(20)`. -/
def progress_spinner (message : String) : SpinnerConfig :=
  { message := message
    template := "{spinner} {msg}"
    tick_ms := 20 }

/-- Environment with no variables set. -/
def env_empty : String → Option String := fun _ => none

/-- Environment with only `NOTION_DEV` set, to `"1"`. -/
def env_dev1 : String → Option String := fun k =>
  if k = "NOTION_DEV" then some "1" else none

/-- Environment with only `NOTION_DEV` set, to a different value `"true"`. -/
def env_dev2 : String → Option String := fun k =>
  if k = "NOTION_DEV" then some "true" else none

/-- Environment with both `NOTION_DEV` and `RUST_BACKTRACE` set. -/
def env_dev_rb : String → Option String := fun k =>
  if k = "NOTION_DEV" ∨ k = "RUST_BACKTRACE" then some "1" else none

/-- Environment with only `RUST_BACKTRACE` set. -/
def env_rb : String → Option String := fun k =>
  if k = "RUST_BACKTRACE" then some "1" else none

/-- C1: at terminal width 10 with action `Fetching` and details `"v1.23.4"`,
the `usize` subtraction chain computing `available_width` underflows, so
`progress_bar` does not return a bar width of 0 as the claim requires: the
checked evaluation yields `none` (a panic in debug builds; a wrap-around in
release builds, which would give `bar_width = 40`, not 0). -/
theorem bar_width_underflow_at_narrow_terminal :
    bar_width (some 10) "v1.23.4" = none := by decide

/-- C2: for terminal width 80, action `Fetching` (`MAX_WIDTH = 10`) and
details `"v1.23.4"` (7 bytes), `msg_width = 18`,
`available_width = 80-2-18-2-2-1-3-1 = 51` and `bar_width = min(51, 40) = 40`. -/
theorem bar_width_at_width_80 :
    msg_width "v1.23.4" = 18 ∧
    available_width (some 80) "v1.23.4" = some 51 ∧
    bar_width (some 80) "v1.23.4" = some 40 := by decide

/-- C3: reporting an error in the `Notion` context writes exactly
`"error:"`, a space, the message, and a newline (styling codes ignored). -/
theorem display_error_notion_exact (m : String) :
    display_error ErrorContext.Notion m = "error: " ++ m ++ "\n" := rfl

/-- C4: reporting an error in the `Shim` context writes the prefix
`"Notion error: "` (containing the tool name, distinct from and strictly
longer than the `Notion`-context prefix), then the message and a newline. -/
theorem display_error_shim_exact (m : String) :
    display_error ErrorContext.Shim m = "Notion error: " ++ m ++ "\n" ∧
    display_error_prefix ErrorContext.Shim ≠ display_error_prefix ErrorContext.Notion ∧
    ( display_error_prefix ErrorContext.Notion).length <
      ( display_error_prefix ErrorContext.Shim).length ∧
    "Notion".data.isPrefixOf ( display_error_prefix ErrorContext.Shim).data = true :=
  ⟨rfl, by decide, by decide, by decide⟩

/-- C5: with `NOTION_DEV` unset, `display_unknown_error` writes, after the
context prefix and the internal-error line, the fixed three-paragraph user
message, independently of the failure value. -/
theorem display_unknown_error_prod_fixed (env : String → Option String)
    (cx : ErrorContext) (err : Failure) (h : env "NOTION_DEV" = none) :
    display_unknown_error env cx err =
      display_error_prefix cx ++ "an internal error occurred\n" ++ "\n" ++
        unknown_error_user_message := by
  simp [display_unknown_error, h]

/-- C5 witness: the theorem applied to the empty environment, the `Notion`
context, and a failure carrying a backtrace. -/
theorem display_unknown_error_prod_fixed_witness :
    display_unknown_error env_empty ErrorContext.Notion ⟨"boom", some "trace"⟩ =
      display_error_prefix ErrorContext.Notion ++ "an internal error occurred\n" ++ "\n" ++
        unknown_error_user_message :=
  display_unknown_error_prod_fixed env_empty ErrorContext.Notion ⟨"boom", some "trace"⟩ rfl

/-- C6: with `NOTION_DEV` set, `display_unknown_error` writes a `details:`
line with the failure's debug representation; it then writes the backtrace
exactly when one is present and `RUST_BACKTRACE` is set, and in every other
case writes the instructional fallback line. -/
theorem display_unknown_error_dev_branches (env : String → Option String)
    (cx : ErrorContext) (err : Failure) (h : (env "NOTION_DEV").isSome = true) :
    (∀ bt : String, err.backtrace = some bt → (env "RUST_BACKTRACE").isSome = true →
      display_unknown_error env cx err =
        display_error_prefix cx ++ "an internal error occurred\n" ++ "\n" ++
          ("details: " ++ err.debugRepr ++ "\n" ++ "\n" ++ (bt ++ "\n"))) ∧
    (err.backtrace = none ∨ (env "RUST_BACKTRACE").isSome = false →
      display_unknown_error env cx err =
        display_error_prefix cx ++ "an internal error occurred\n" ++ "\n" ++
          ("details: " ++ err.debugRepr ++ "\n" ++ "\n" ++ backtrace_instruction)) := by
  constructor
  · intro bt hbt hrb
    simp [display_unknown_error, h, hbt, hrb]
  · intro hcase
    rcases hcase with hbt | hrb
    · cases hb : (env "RUST_BACKTRACE").isSome <;>
        simp [display_unknown_error, h, hbt, hb]
    · cases hbt : err.backtrace <;>
        simp [display_unknown_error, h, hbt, hrb]

/-- C6 witness: with both flags set and a failure carrying backtrace
`"trace"`, the backtrace is written. -/
theorem display_unknown_error_dev_branches_witness :
    display_unknown_error env_dev_rb ErrorContext.Notion ⟨"boom", some "trace"⟩ =
      display_error_prefix ErrorContext.Notion ++ "an internal error occurred\n" ++ "\n" ++
        ("details: " ++ "boom" ++ "\n" ++ "\n" ++ ("trace" ++ "\n")) :=
  (display_unknown_error_dev_branches env_dev_rb ErrorContext.Notion
    ⟨"boom", some "trace"⟩ (by decide)).1 "trace" rfl (by decide)

/-- C9: `display_unknown_error` reads the two flags per call from the
environment it is given, and only their set-versus-unset status matters: two
environments agreeing on the presence of `NOTION_DEV` and of `RUST_BACKTRACE`
produce identical output, whatever values the variables hold. -/
theorem display_unknown_error_presence_only (e1 e2 : String → Option String)
    (cx : ErrorContext) (err : Failure)
    (hdev : (e1 "NOTION_DEV").isSome = (e2 "NOTION_DEV").isSome)
    (hrb : (e1 "RUST_BACKTRACE").isSome = (e2 "RUST_BACKTRACE").isSome) :
    display_unknown_error e1 cx err = display_unknown_error e2 cx err := by
  simp [display_unknown_error, hdev, hrb]

/-- C9 witness: `NOTION_DEV="1"` and `NOTION_DEV="true"` behave identically. -/
theorem display_unknown_error_presence_only_witness :
    display_unknown_error env_dev1 ErrorContext.Shim ⟨"boom", none⟩ =
      display_unknown_error env_dev2 ErrorContext.Shim ⟨"boom", none⟩ :=
  display_unknown_error_presence_only env_dev1 env_dev2 ErrorContext.Shim
    ⟨"boom", none⟩ (by decide) (by decide)

/-- C10: with `NOTION_DEV` unset, the output of `display_unknown_error` does
not depend on `RUST_BACKTRACE` (or on anything else in the environment): any
two environments with `NOTION_DEV` unset produce identical output. -/
theorem display_unknown_error_backtrace_noninterference
    (e1 e2 : String → Option String) (cx : ErrorContext) (err : Failure)
    (h1 : e1 "NOTION_DEV" = none) (h2 : e2 "NOTION_DEV" = none) :
    display_unknown_error e1 cx err = display_unknown_error e2 cx err := by
  simp [display_unknown_error, h1, h2]

/-- C10 witness: with `NOTION_DEV` unset, setting `RUST_BACKTRACE` alone does
not change the output. -/
theorem display_unknown_error_backtrace_noninterference_witness :
    display_unknown_error env_empty ErrorContext.Notion ⟨"boom", some "trace"⟩ =
      display_unknown_error env_rb ErrorContext.Notion ⟨"boom", some "trace"⟩ :=
  display_unknown_error_backtrace_noninterference env_empty env_rb
    ErrorContext.Notion ⟨"boom", some "trace"⟩ rfl (by decide)

/-- C7: `Action::MAX_WIDTH` is 10, while the display string of the only
variant, `"Fetching"`, has length 8, so the constant does not equal the
maximum display-string length its comment documents; the progress-bar message
does pad the action label to exactly `MAX_WIDTH` characters. -/
theorem action_max_width_mismatch :
    Action.MAX_WIDTH = 10 ∧
    Action.display Action.Fetching = "Fetching" ∧
    (Action.display Action.Fetching).length = 8 ∧
    Action.MAX_WIDTH ≠ (Action.display Action.Fetching).length ∧
    (pad_start (Action.display Action.Fetching) Action.MAX_WIDTH).length =
      Action.MAX_WIDTH := by decide

end NotionStyle
